import Mathlib

/-
Verification of the itrf2014 station-coordinate extrapolation tools.

Shallow embedding of the Python sources:
  * python/itrftools/itrftools/parametric.py   (post-seismic deformation models)
  * python/itrftools/itrftools/itrfssc.py      (SSC catalog extrapolation)
  * python/itrftools/itrftools/compute_psd.py  (PSD accumulation, geodetic transform,
                                                compact-epoch decoding)
  * python/compute_psd.py                      (duplicate top-level reader)

Python floats are modelled as real numbers (transcendental parts) or exact
rationals (the purely arithmetic SSC pipeline); Python exceptions are modelled
with an `Except` error monad whose error type enumerates the exception kinds
the code can raise.
-/

open scoped Classical

/-- Kinds of Python exceptions the embedded code can raise, together with the
error names used by the specification's error taxonomy (`invalidModelTag`,
`invalidParameters`, `domainError`); the latter three are never produced by
any code path and exist so that statements about them can be expressed. -/
inductive PyErr where
  | typeError
  | keyError
  | valueError
  | zeroDivisionError
  | assertionError
  | invalidModelTag
  | invalidParameters
  | domainError
  deriving DecidableEq

/-- parametric.py `md_pwl`: the piece-wise-linear model, constant 0. -/
def md_pwl : ℝ := 0

/-- parametric.py `md_log`: `a1*math.log(1e0+dtq/t1)`.  `dtq/t1` with `t1 = 0`
raises ZeroDivisionError; `math.log` of a non-positive argument raises
ValueError (Python's "math domain error"). -/
noncomputable def md_log (dtq a1 t1 : ℝ) : Except PyErr ℝ :=
  if t1 = 0 then .error .zeroDivisionError
  else if 1 + dtq / t1 ≤ 0 then .error .valueError
  else .ok (a1 * Real.log (1 + dtq / t1))

/-- parametric.py `md_exp`: `te1 = dtq/t1; a1*(1e0-math.exp(-te1))`. -/
noncomputable def md_exp (dtq a1 t1 : ℝ) : Except PyErr ℝ :=
  if t1 = 0 then .error .zeroDivisionError
  else .ok (a1 * (1 - Real.exp (-(dtq / t1))))

/-- parametric.py `md_logexp`: `te2 = dtq/t2` is computed first, then
`a1*math.log(1+dtq/t1) + a2*(1-math.exp(-te2))`. -/
noncomputable def md_logexp (dtq a1 t1 a2 t2 : ℝ) : Except PyErr ℝ :=
  if t2 = 0 then .error .zeroDivisionError
  else if t1 = 0 then .error .zeroDivisionError
  else if 1 + dtq / t1 ≤ 0 then .error .valueError
  else .ok (a1 * Real.log (1 + dtq / t1) + a2 * (1 - Real.exp (-(dtq / t2))))

/-- parametric.py `md_expexp`: `te1 = dtq/t1; te2 = dtq/t2;
a1*(1e0-math.exp(-te1)) + a2*(1e0-math.exp(-te2))`. -/
noncomputable def md_expexp (dtq a1 t1 a2 t2 : ℝ) : Except PyErr ℝ :=
  if t1 = 0 then .error .zeroDivisionError
  else if t2 = 0 then .error .zeroDivisionError
  else .ok (a1 * (1 - Real.exp (-(dtq / t1))) + a2 * (1 - Real.exp (-(dtq / t2))))

/-- parametric.py `int_model_dict`: maps the integer model tag to the model
name; a key outside 0..4 raises KeyError (modelled as `none`). -/
def intModelDict (m : ℤ) : Option String :=
  if m = 0 then some "pwl"
  else if m = 1 then some "log"
  else if m = 2 then some "exp"
  else if m = 3 then some "logexp"
  else if m = 4 then some "expexp"
  else none

/-- parametric.py `model_dict[name](*args)`: call the named model function on a
positional argument list.  A wrong number of positional arguments raises
TypeError.  (Only the five names present in `model_dict` ever reach this
call.) -/
noncomputable def modelDictCall : String → List ℝ → Except PyErr ℝ
  | "pwl", [] => .ok md_pwl
  | "log", [dtq, a1, t1] => md_log dtq a1 t1
  | "exp", [dtq, a1, t1] => md_exp dtq a1 t1
  | "logexp", [dtq, a1, t1, a2, t2] => md_logexp dtq a1 t1 a2 t2
  | "expexp", [dtq, a1, t1, a2, t2] => md_expexp dtq a1 t1 a2 t2
  | _, _ => .error .typeError

/-- parametric.py `parametric(model, *args)` for an integer model tag (the tag
read from a PSD catalog is always an int).  The body is
`try: model + 1; return model_dict[int_model_dict[model]](*args) if model > 0
else model_dict[int_model_dict[model]]()` with a bare `except:` that falls back
to `model_dict[model](*args)`.  For an int tag, `model + 1` succeeds, so any
exception inside the try body (KeyError from `int_model_dict`, TypeError from a
wrong arity, ValueError from `math.log`, ZeroDivisionError) lands in the
`except` branch, whose lookup `model_dict[model]` with an integer key raises a
fresh, uncaught KeyError. -/
noncomputable def parametric (model : ℤ) (args : List ℝ) : Except PyErr ℝ :=
  match intModelDict model with
  | none => .error .keyError
  | some name =>
    match modelDictCall name (if 0 < model then args else []) with
    | .ok v => .ok v
    | .error _ => .error .keyError

/- Reduction lemmas relating `parametric` at each concrete integer tag to the
underlying model function. -/

lemma parametric_tag0 (args : List ℝ) : parametric 0 args = .ok 0 := rfl

lemma parametric_tag1 (dtq a1 t1 : ℝ) :
    parametric 1 [dtq, a1, t1] =
      match md_log dtq a1 t1 with
      | .ok v => .ok v
      | .error _ => .error .keyError := rfl

lemma parametric_tag2 (dtq a1 t1 : ℝ) :
    parametric 2 [dtq, a1, t1] =
      match md_exp dtq a1 t1 with
      | .ok v => .ok v
      | .error _ => .error .keyError := rfl

lemma parametric_tag3 (dtq a1 t1 a2 t2 : ℝ) :
    parametric 3 [dtq, a1, t1, a2, t2] =
      match md_logexp dtq a1 t1 a2 t2 with
      | .ok v => .ok v
      | .error _ => .error .keyError := rfl

lemma parametric_tag4 (dtq a1 t1 a2 t2 : ℝ) :
    parametric 4 [dtq, a1, t1, a2, t2] =
      match md_expexp dtq a1 t1 a2 t2 with
      | .ok v => .ok v
      | .error _ => .error .keyError := rfl

lemma md_log_ok (dtq a1 t1 : ℝ) (h1 : t1 ≠ 0) (h2 : 0 < 1 + dtq / t1) :
    md_log dtq a1 t1 = .ok (a1 * Real.log (1 + dtq / t1)) := by
  rw [md_log, if_neg h1, if_neg (not_le.mpr h2)]

lemma md_exp_ok (dtq a1 t1 : ℝ) (h1 : t1 ≠ 0) :
    md_exp dtq a1 t1 = .ok (a1 * (1 - Real.exp (-(dtq / t1)))) := by
  rw [md_exp, if_neg h1]

lemma md_logexp_ok (dtq a1 t1 a2 t2 : ℝ) (h1 : t1 ≠ 0) (h2 : t2 ≠ 0)
    (h3 : 0 < 1 + dtq / t1) :
    md_logexp dtq a1 t1 a2 t2 =
      .ok (a1 * Real.log (1 + dtq / t1) + a2 * (1 - Real.exp (-(dtq / t2)))) := by
  rw [md_logexp, if_neg h2, if_neg h1, if_neg (not_le.mpr h3)]

lemma md_expexp_ok (dtq a1 t1 a2 t2 : ℝ) (h1 : t1 ≠ 0) (h2 : t2 ≠ 0) :
    md_expexp dtq a1 t1 a2 t2 =
      .ok (a1 * (1 - Real.exp (-(dtq / t1))) + a2 * (1 - Real.exp (-(dtq / t2)))) := by
  rw [md_expexp, if_neg h1, if_neg h2]

/-- C1: for an in-range integer tag with the right number of parameters, the
evaluator returns the stated closed form: PWL is 0 regardless of the argument
list, LOG is `a1*ln(1+dtq/t1)` (when `t1 ≠ 0` and the log argument is
positive), EXP is `a1*(1-exp(-dtq/t1))` (when `t1 ≠ 0`), LOGEXP and EXPEXP are
the corresponding sums; and each of the five models evaluated at `dtq = 0`
returns 0. -/
theorem c1_parametric_closed_forms :
    (∀ args : List ℝ, parametric 0 args = .ok 0)
    ∧ (∀ dtq a1 t1 : ℝ, t1 ≠ 0 → 0 < 1 + dtq / t1 →
        parametric 1 [dtq, a1, t1] = .ok (a1 * Real.log (1 + dtq / t1)))
    ∧ (∀ dtq a1 t1 : ℝ, t1 ≠ 0 →
        parametric 2 [dtq, a1, t1] = .ok (a1 * (1 - Real.exp (-(dtq / t1)))))
    ∧ (∀ dtq a1 t1 a2 t2 : ℝ, t1 ≠ 0 → t2 ≠ 0 → 0 < 1 + dtq / t1 →
        parametric 3 [dtq, a1, t1, a2, t2] =
          .ok (a1 * Real.log (1 + dtq / t1) + a2 * (1 - Real.exp (-(dtq / t2)))))
    ∧ (∀ dtq a1 t1 a2 t2 : ℝ, t1 ≠ 0 → t2 ≠ 0 →
        parametric 4 [dtq, a1, t1, a2, t2] =
          .ok (a1 * (1 - Real.exp (-(dtq / t1))) + a2 * (1 - Real.exp (-(dtq / t2)))))
    ∧ (∀ a1 t1 a2 t2 : ℝ, t1 ≠ 0 → t2 ≠ 0 →
        parametric 1 [0, a1, t1] = .ok 0 ∧ parametric 2 [0, a1, t1] = .ok 0
        ∧ parametric 3 [0, a1, t1, a2, t2] = .ok 0
        ∧ parametric 4 [0, a1, t1, a2, t2] = .ok 0) := by
  have hlog : ∀ dtq a1 t1 : ℝ, t1 ≠ 0 → 0 < 1 + dtq / t1 →
      parametric 1 [dtq, a1, t1] = .ok (a1 * Real.log (1 + dtq / t1)) := by
    intro dtq a1 t1 h1 h2
    rw [parametric_tag1, md_log_ok dtq a1 t1 h1 h2]
  have hexp : ∀ dtq a1 t1 : ℝ, t1 ≠ 0 →
      parametric 2 [dtq, a1, t1] = .ok (a1 * (1 - Real.exp (-(dtq / t1)))) := by
    intro dtq a1 t1 h1
    rw [parametric_tag2, md_exp_ok dtq a1 t1 h1]
  have hlogexp : ∀ dtq a1 t1 a2 t2 : ℝ, t1 ≠ 0 → t2 ≠ 0 → 0 < 1 + dtq / t1 →
      parametric 3 [dtq, a1, t1, a2, t2] =
        .ok (a1 * Real.log (1 + dtq / t1) + a2 * (1 - Real.exp (-(dtq / t2)))) := by
    intro dtq a1 t1 a2 t2 h1 h2 h3
    rw [parametric_tag3, md_logexp_ok dtq a1 t1 a2 t2 h1 h2 h3]
  have hexpexp : ∀ dtq a1 t1 a2 t2 : ℝ, t1 ≠ 0 → t2 ≠ 0 →
      parametric 4 [dtq, a1, t1, a2, t2] =
        .ok (a1 * (1 - Real.exp (-(dtq / t1))) + a2 * (1 - Real.exp (-(dtq / t2)))) := by
    intro dtq a1 t1 a2 t2 h1 h2
    rw [parametric_tag4, md_expexp_ok dtq a1 t1 a2 t2 h1 h2]
  refine ⟨fun args => parametric_tag0 args, hlog, hexp, hlogexp, hexpexp, ?_⟩
  intro a1 t1 a2 t2 h1 h2
  have hpos : (0 : ℝ) < 1 + 0 / t1 := by simp
  refine ⟨?_, ?_, ?_, ?_⟩
  · rw [hlog 0 a1 t1 h1 hpos]; simp
  · rw [hexp 0 a1 t1 h1]; simp
  · rw [hlogexp 0 a1 t1 a2 t2 h1 h2 hpos]; simp
  · rw [hexpexp 0 a1 t1 a2 t2 h1 h2]; simp

/-- C1 witness: the closed forms instantiated at concrete parameters. -/
theorem c1_witness :
    parametric 2 [(1 : ℝ), 10, 1] = .ok (10 * (1 - Real.exp (-((1 : ℝ) / 1))))
    ∧ parametric 1 [(0 : ℝ), 3, 2] = .ok 0 :=
  ⟨c1_parametric_closed_forms.2.2.1 1 10 1 (by norm_num),
   (c1_parametric_closed_forms.2.2.2.2.2 3 2 1 1 (by norm_num) (by norm_num)).1⟩

/-- C5 counterexample: the out-of-range tag 7 and the wrong-arity call for tag 1
both surface as a plain KeyError (the bare `except` fallback indexes
`model_dict` with the integer tag); the code raises neither `InvalidModelTag`
nor `InvalidParameters`, and has no construction step at which it could. -/
theorem c5_counterexample :
    parametric 7 [] = .error .keyError
    ∧ parametric 7 ([] : List ℝ) ≠ .error .invalidModelTag
    ∧ parametric 1 [(0.5 : ℝ)] = .error .keyError
    ∧ parametric 1 [(0.5 : ℝ)] ≠ .error .invalidParameters := by
  refine ⟨rfl, ?_, rfl, ?_⟩
  · rw [show parametric 7 ([] : List ℝ) = .error .keyError from rfl]
    simp
  · rw [show parametric 1 [(0.5 : ℝ)] = .error .keyError from rfl]
    simp

lemma intModelDict_out_of_range (m : ℤ) (h : m < 0 ∨ 4 < m) : intModelDict m = none := by
  rw [intModelDict, if_neg (by omega), if_neg (by omega), if_neg (by omega),
    if_neg (by omega), if_neg (by omega)]

lemma modelDictCall_log_arity (args : List ℝ) (h : args.length ≠ 3) :
    modelDictCall "log" args = .error .typeError := by
  match args with
  | [] => rfl
  | [a] => rfl
  | [a, b] => rfl
  | [a, b, c] => exact absurd rfl h
  | a :: b :: c :: d :: t => rfl

lemma modelDictCall_logexp_arity (args : List ℝ) (h : args.length ≠ 5) :
    modelDictCall "logexp" args = .error .typeError := by
  match args with
  | [] => rfl
  | [a] => rfl
  | [a, b] => rfl
  | [a, b, c] => rfl
  | [a, b, c, d] => rfl
  | [a, b, c, d, e] => exact absurd rfl h
  | a :: b :: c :: d :: e :: g :: t => rfl

/-- C5 amended: an integer tag outside 0..4, and an in-range tag called with a
parameter list of the wrong length, both make `parametric` raise an uncaught
KeyError at evaluation (call) time; there is no `ParametricModel` value, no
construction-time check, and no `InvalidModelTag` or `InvalidParameters`
error in the code. -/
theorem c5_amended :
    (∀ m : ℤ, m < 0 ∨ 4 < m → ∀ args : List ℝ, parametric m args = .error .keyError)
    ∧ (∀ args : List ℝ, args.length ≠ 3 → parametric 1 args = .error .keyError)
    ∧ (∀ args : List ℝ, args.length ≠ 5 → parametric 3 args = .error .keyError) := by
  refine ⟨?_, ?_, ?_⟩
  · intro m h args
    rw [parametric, intModelDict_out_of_range m h]
  · intro args h
    have h1 : parametric 1 args =
        match modelDictCall "log" args with
        | .ok v => .ok v
        | .error _ => .error .keyError := rfl
    rw [h1, modelDictCall_log_arity args h]
  · intro args h
    have h1 : parametric 3 args =
        match modelDictCall "logexp" args with
        | .ok v => .ok v
        | .error _ => .error .keyError := rfl
    rw [h1, modelDictCall_logexp_arity args h]

/-- C5 witness: the amended behavior at tag 9 and at a 1-element list for tag 1. -/
theorem c5_witness :
    parametric 9 [(1 : ℝ)] = .error .keyError
    ∧ parametric 1 [(1 : ℝ)] = .error .keyError :=
  ⟨c5_amended.1 9 (by norm_num) [(1 : ℝ)],
   c5_amended.2.1 [(1 : ℝ)] (by norm_num)⟩

lemma log_arg_nonpos {dtq t1 : ℝ} (ht1 : 0 < t1) (hd : dtq ≤ -t1) :
    1 + dtq / t1 ≤ 0 := by
  have h1 : dtq / t1 ≤ (-t1) / t1 := (div_le_div_iff_of_pos_right ht1).mpr hd
  have h2 : (-t1) / t1 = -1 := by
    rw [neg_div, div_self (ne_of_gt ht1)]
  rw [h2] at h1
  linarith

lemma md_log_domain_err (dtq a1 t1 : ℝ) (ht1 : 0 < t1) (hd : dtq ≤ -t1) :
    md_log dtq a1 t1 = .error .valueError := by
  rw [md_log, if_neg (ne_of_gt ht1), if_pos (log_arg_nonpos ht1 hd)]

lemma md_logexp_domain_err (dtq a1 t1 a2 t2 : ℝ) (ht1 : 0 < t1) (hd : dtq ≤ -t1) :
    ∃ e, md_logexp dtq a1 t1 a2 t2 = .error e := by
  by_cases h2 : t2 = 0
  · exact ⟨.zeroDivisionError, by rw [md_logexp, if_pos h2]⟩
  · exact ⟨.valueError, by
      rw [md_logexp, if_neg h2, if_neg (ne_of_gt ht1),
        if_pos (log_arg_nonpos ht1 hd)]⟩

/-- C6 counterexample: the LOG model with `t1 = 1` evaluated at `dtq = -2`
(so the logarithm argument `1 + dtq/t1 = -1` is non-positive) makes
`parametric` fail with KeyError — the ValueError raised by `math.log` is
swallowed by the bare `except`, whose own `model_dict[1]` lookup raises
KeyError — not with any `DomainError`. -/
theorem c6_counterexample :
    parametric 1 [(-2 : ℝ), 5, 1] = .error .keyError
    ∧ parametric 1 [(-2 : ℝ), 5, 1] ≠ .error .domainError := by
  have h : parametric 1 [(-2 : ℝ), 5, 1] = .error .keyError := by
    rw [parametric_tag1, md_log_domain_err (-2) 5 1 (by norm_num) (by norm_num)]
  exact ⟨h, by rw [h]; simp⟩

/-- C6 amended: a logarithmic model (tag LOG or LOGEXP) evaluated at
`dtq ≤ -t1` with `0 < t1` is an explicit failure, never a silently returned
value: `md_log` itself raises ValueError (Python's "math domain error"), and
through the integer-tag dispatcher `parametric` the failure surfaces as an
uncaught KeyError; in particular no `.ok` value is produced.  The code has no
error named `DomainError`. -/
theorem c6_amended :
    ∀ dtq a1 t1 a2 t2 : ℝ, 0 < t1 → dtq ≤ -t1 →
      md_log dtq a1 t1 = .error .valueError
      ∧ parametric 1 [dtq, a1, t1] = .error .keyError
      ∧ parametric 3 [dtq, a1, t1, a2, t2] = .error .keyError
      ∧ ∀ v : ℝ, parametric 1 [dtq, a1, t1] ≠ .ok v := by
  intro dtq a1 t1 a2 t2 ht1 hd
  have h1 : md_log dtq a1 t1 = .error .valueError := md_log_domain_err dtq a1 t1 ht1 hd
  have h2 : parametric 1 [dtq, a1, t1] = .error .keyError := by
    rw [parametric_tag1, h1]
  obtain ⟨e, he⟩ := md_logexp_domain_err dtq a1 t1 a2 t2 ht1 hd
  have h3 : parametric 3 [dtq, a1, t1, a2, t2] = .error .keyError := by
    rw [parametric_tag3, he]
  exact ⟨h1, h2, h3, fun v => by rw [h2]; simp⟩

/-- C6 witness: the amended behavior at `dtq = -3, t1 = 1`. -/
theorem c6_witness :
    md_log (-3) 2 1 = .error .valueError
    ∧ parametric 1 [(-3 : ℝ), 2, 1] = .error .keyError :=
  ⟨(c6_amended (-3) 2 1 4 1 (by norm_num) (by norm_num)).1,
   (c6_amended (-3) 2 1 4 1 (by norm_num) (by norm_num)).2.1⟩

/-
SSC catalog pipeline (itrfssc.py).  Instants are Python datetimes modelled as
integer seconds since 0001-01-01 00:00 (the proleptic Gregorian ordinal that
`datetime.toordinal` uses, scaled to seconds); the purely arithmetic
extrapolation is modelled over exact rationals.
-/

/-- CPython `datetime._days_before_year`: days before January 1 of `y` in the
proleptic Gregorian calendar. -/
def days_before_year (y : ℕ) : ℕ :=
  (y - 1) * 365 + (y - 1) / 4 - (y - 1) / 100 + (y - 1) / 400

/-- Seconds-since-0001-01-01 of January 1, 00:00:00 of year `y` (the instant
`datetime.datetime(y, 1, 1)`). -/
def epochSeconds (y : ℕ) : ℤ := (days_before_year y : ℤ) * 86400

/-- `datetime.datetime.min` (0001-01-01 00:00), the open-ended validity start
sentinel of `read_next_record`. -/
def pyDatetimeMinS : ℤ := epochSeconds 1

/-- `datetime.datetime.max` (end of year 9999), the open-ended validity stop
sentinel of `read_next_record`, modelled as the last second of 9999-12-31. -/
def pyDatetimeMaxS : ℤ := epochSeconds 10000 - 1

/-- itrfssc.py, `itrf_extrapolate` inner loop: `dt = t - t0;
dyr = (dt.days + dt.seconds/86400e0)/365.25`.  A Python `timedelta` normalizes
a signed difference of `ds` seconds into `days = ds // 86400` (floor) and
`seconds = ds % 86400 ∈ [0, 86400)`. -/
def fracYears (ds : ℤ) : ℚ :=
  ((Int.fdiv ds 86400 : ℚ) + (Int.fmod ds 86400 : ℚ) / 86400) / 365.25

/-- itrfssc.py `extrapolate`: `x0 + vx*dtq`. -/
def extrapolate (dtq x0 vx : ℚ) : ℚ := x0 + vx * dtq

/-- Python `str.upper()` on the ASCII station ids appearing in the catalogs,
modelled as a per-character uppercase map. -/
def strUpper (s : String) : String := String.mk (s.data.map Char.toUpper)

/-- The record dictionary built by itrfssc.py `read_next_record`. -/
structure SscRecord where
  domes : String
  name : String
  tqn : String
  id : String
  start : ℤ
  stop : ℤ
  x : ℚ
  y : ℚ
  z : ℚ
  vx : ℚ
  vy : ℚ
  vz : ℚ
  sx : ℚ
  sy : ℚ
  sz : ℚ
  svx : ℚ
  svy : ℚ
  svz : ℚ
  deriving DecidableEq

/-- One entry of the list returned by itrfssc.py `itrf_extrapolate`:
`{'station':, 'domes':, 'x':, 'y':, 'z':}`. -/
structure SscResult where
  station : String
  domes : String
  x : ℚ
  y : ℚ
  z : ℚ
  deriving DecidableEq

/-- The result entry appended for a matching record: the three coordinates
extrapolated with `fracYears (t - t0)`. -/
def mkSscResult (t0 t : ℤ) (dic : SscRecord) : SscResult :=
  { station := dic.id
    domes := dic.domes
    x := extrapolate (fracYears (t - t0)) dic.x dic.vx
    y := extrapolate (fracYears (t - t0)) dic.y dic.vy
    z := extrapolate (fracYears (t - t0)) dic.z dic.vz }

/-- itrfssc.py `itrf_extrapolate`, with the already-parsed records of the SSC
file abstracted as a list: uppercase the station list, and for each record
keep it iff `dic['domes'] in domes or dic['id'] in station` and
`t >= dic['start'] and t < dic['stop']`. -/
def itrf_extrapolate (records : List SscRecord) (t0 t : ℤ)
    (station domes : List String) : List SscResult :=
  records.filterMap fun dic =>
    if dic.domes ∈ domes ∨ dic.id ∈ station.map strUpper then
      if dic.start ≤ t ∧ t < dic.stop then some (mkSscResult t0 t dic) else none
    else none

/-- The single-station catalog of the end-to-end scenario: position
`(4581690, 556114, 4389360)` m and velocity `(0.01, -0.005, 0.02)` m/yr, with
an open-ended validity interval. -/
def grasRecord : SscRecord :=
  { domes := "10002M006"
    name := "Grasse (OCA)     "
    tqn := "GNSS"
    id := "GRAS"
    start := pyDatetimeMinS
    stop := pyDatetimeMaxS
    x := 4581690.0
    y := 556114.0
    z := 4389360.0
    vx := 0.01
    vy := -0.005
    vz := 0.02
    sx := 0.001
    sy := 0.001
    sz := 0.001
    svx := 0.001
    svy := 0.001
    svz := 0.001 }

lemma fracYears_2005_2007 :
    fracYears (epochSeconds 2007 - epochSeconds 2005) = 2920 / 1461 := by
  have h : epochSeconds 2007 - epochSeconds 2005 = 63072000 := by decide
  have h2 : Int.fdiv 63072000 86400 = 730 := by decide
  have h3 : Int.fmod 63072000 86400 = 0 := by decide
  rw [fracYears, h, h2, h3]
  norm_num

lemma c2_scan :
    itrf_extrapolate [grasRecord] (epochSeconds 2005) (epochSeconds 2007)
        ["GRAS"] [] =
      [mkSscResult (epochSeconds 2005) (epochSeconds 2007) grasRecord] := by
  have h1 : grasRecord.domes ∈ ([] : List String)
      ∨ grasRecord.id ∈ ["GRAS"].map strUpper := by decide
  have h2 : grasRecord.start ≤ epochSeconds 2007
      ∧ epochSeconds 2007 < grasRecord.stop := by decide
  simp only [itrf_extrapolate, List.filterMap]
  rw [if_pos h1, if_pos h2]

lemma c2_result :
    mkSscResult (epochSeconds 2005) (epochSeconds 2007) grasRecord =
      { station := "GRAS", domes := "10002M006",
        x := 4581690 + 146 / 7305, y := 556114 - 73 / 7305,
        z := 4389360 + 292 / 7305 } := by
  rw [mkSscResult, fracYears_2005_2007]
  simp only [grasRecord, extrapolate, SscResult.mk.injEq]
  refine ⟨trivial, trivial, by norm_num, by norm_num, by norm_num⟩

/-- C2 counterexample: querying the scenario catalog at 2007-01-01 with
reference epoch 2005-01-01 does not return exactly
`(4581690.02, 556113.99, 4389360.04)`: the elapsed time is 730 days, i.e.
`730/365.25 ≈ 1.99863` fractional years, not 2. -/
theorem c2_counterexample :
    itrf_extrapolate [grasRecord] (epochSeconds 2005) (epochSeconds 2007)
        ["GRAS"] [] ≠
      [{ station := "GRAS", domes := "10002M006",
         x := 4581690.02, y := 556113.99, z := 4389360.04 }] := by
  rw [c2_scan, c2_result]
  intro h
  simp only [List.cons.injEq, SscResult.mk.injEq] at h
  obtain ⟨⟨-, -, hx, -, -⟩, -⟩ := h
  norm_num at hx

/-- C2 amended: the query returns exactly one entry whose coordinates are
`x0 + v·(730/365.25)` per component — within `10⁻⁴` m of the stated values
`(4581690.02, 556113.99, 4389360.04)`, but not equal to them, because the two
calendar years 2005-01-01 → 2007-01-01 span 730 days = 1.99863… fractional
years under the `(days + seconds/86400)/365.25` rule. -/
theorem c2_amended :
    itrf_extrapolate [grasRecord] (epochSeconds 2005) (epochSeconds 2007)
        ["GRAS"] [] =
      [{ station := "GRAS", domes := "10002M006",
         x := 4581690 + 146 / 7305, y := 556114 - 73 / 7305,
         z := 4389360 + 292 / 7305 }]
    ∧ |(4581690 + 146 / 7305 : ℚ) - 4581690.02| < 1 / 10000
    ∧ |(556114 - 73 / 7305 : ℚ) - 556113.99| < 1 / 10000
    ∧ |(4389360 + 292 / 7305 : ℚ) - 4389360.04| < 1 / 10000 := by
  refine ⟨by rw [c2_scan, c2_result], ?_, ?_, ?_⟩
  · have h : (4581690 + 146 / 7305 : ℚ) - 4581690.02 = -(1 / 73050) := by norm_num
    rw [h, abs_neg, abs_of_nonneg (by norm_num)]
    norm_num
  · have h : (556114 - 73 / 7305 : ℚ) - 556113.99 = 1 / 146100 := by norm_num
    rw [h, abs_of_nonneg (by norm_num)]
    norm_num
  · have h : (4389360 + 292 / 7305 : ℚ) - 4389360.04 = -(1 / 36525) := by norm_num
    rw [h, abs_neg, abs_of_nonneg (by norm_num)]
    norm_num

/-- C7: a result is produced by the catalog query iff some record matches the
requested domes/id lists AND its validity interval contains the query epoch;
and a requested id that matches no record yields the empty result list, not an
error. -/
theorem c7_query_contract :
    (∀ (records : List SscRecord) (t0 t : ℤ) (station domes : List String)
        (res : SscResult),
      res ∈ itrf_extrapolate records t0 t station domes ↔
        ∃ r ∈ records,
          (r.domes ∈ domes ∨ r.id ∈ station.map strUpper)
          ∧ (r.start ≤ t ∧ t < r.stop)
          ∧ res = mkSscResult t0 t r)
    ∧ (∀ (records : List SscRecord) (t0 t : ℤ) (sid : String),
      (∀ r ∈ records, r.id ≠ strUpper sid) →
      itrf_extrapolate records t0 t [sid] [] = []) := by
  constructor
  · intro records t0 t station domes res
    simp only [itrf_extrapolate, List.mem_filterMap]
    constructor
    · rintro ⟨r, hr, hf⟩
      refine ⟨r, hr, ?_⟩
      by_cases h1 : r.domes ∈ domes ∨ r.id ∈ station.map strUpper
      · rw [if_pos h1] at hf
        by_cases h2 : r.start ≤ t ∧ t < r.stop
        · rw [if_pos h2] at hf
          exact ⟨h1, h2, (Option.some.inj hf).symm⟩
        · rw [if_neg h2] at hf
          exact Option.noConfusion hf
      · rw [if_neg h1] at hf
        exact Option.noConfusion hf
    · rintro ⟨r, hr, h1, h2, rfl⟩
      exact ⟨r, hr, by rw [if_pos h1, if_pos h2]⟩
  · intro records t0 t sid h
    apply List.filterMap_eq_nil_iff.mpr
    intro r hr
    rw [if_neg]
    rintro (hd | hid)
    · simp at hd
    · simp only [List.map_cons, List.map_nil, List.mem_singleton] at hid
      exact h r hr hid

/-- C7 witness: a record whose id differs from the request is absent, and the
membership characterization instantiated on that one-record catalog. -/
theorem c7_witness :
    itrf_extrapolate [grasRecord] 0 0 ["ankr"] [] = [] :=
  c7_query_contract.2 [grasRecord] 0 0 "ankr" (by decide)

/-- C9: for a record whose id/domes matches the request, selection uses the
half-open interval `start ≤ t < stop`: an arbitrary epoch is selected iff it
satisfies both bounds, the epoch `t = start` is selected (when the interval is
non-empty), and the epoch `t = stop` is always rejected. -/
theorem c9_half_open_interval :
    ∀ (r : SscRecord) (t0 : ℤ) (station domes : List String),
      (r.domes ∈ domes ∨ r.id ∈ station.map strUpper) →
      (∀ t : ℤ, itrf_extrapolate [r] t0 t station domes =
        if r.start ≤ t ∧ t < r.stop then [mkSscResult t0 t r] else [])
      ∧ (r.start < r.stop →
          itrf_extrapolate [r] t0 r.start station domes = [mkSscResult t0 r.start r])
      ∧ itrf_extrapolate [r] t0 r.stop station domes = [] := by
  intro r t0 station domes hm
  have hgen : ∀ t : ℤ, itrf_extrapolate [r] t0 t station domes =
      if r.start ≤ t ∧ t < r.stop then [mkSscResult t0 t r] else [] := by
    intro t
    by_cases h2 : r.start ≤ t ∧ t < r.stop
    · rw [if_pos h2]
      simp only [itrf_extrapolate, List.filterMap]
      rw [if_pos hm, if_pos h2]
    · rw [if_neg h2]
      simp only [itrf_extrapolate, List.filterMap]
      rw [if_pos hm, if_neg h2]
  refine ⟨hgen, ?_, ?_⟩
  · intro hlt
    rw [hgen r.start, if_pos ⟨le_refl _, hlt⟩]
  · rw [hgen r.stop, if_neg]
    rintro ⟨-, h⟩
    exact lt_irrefl _ h

/-- C9 witness: the boundary behavior on the scenario record — the query at
the exact validity stop is excluded, the one at the validity start included. -/
theorem c9_witness :
    itrf_extrapolate [grasRecord] 0 grasRecord.stop ["GRAS"] [] = []
    ∧ itrf_extrapolate [grasRecord] 0 grasRecord.start ["GRAS"] [] =
        [mkSscResult 0 grasRecord.start grasRecord] :=
  ⟨(c9_half_open_interval grasRecord 0 ["GRAS"] [] (by decide)).2.2,
   (c9_half_open_interval grasRecord 0 ["GRAS"] [] (by decide)).2.1 (by decide)⟩

/-
Time utility: compact-epoch decoding (the two `time_str2dt` implementations).
-/

/-- Century resolution of itrftools/itrftools/compute_psd.py `time_str2dt`:
`yr = cyr+2000 if datetime.datetime.now().year > cyr+2000 else cyr+1900`. -/
def time_str2dt_year (cyr nowYear : ℕ) : ℕ :=
  if nowYear > cyr + 2000 then cyr + 2000 else cyr + 1900

/-- Century resolution of the duplicate top-level compute_psd.py `time_str2dt`,
which uses the opposite comparison:
`yr = cyr+2000 if datetime.datetime.now().year < cyr+2000 else cyr+1900`. -/
def time_str2dt_year_dup (cyr nowYear : ℕ) : ℕ :=
  if nowYear < cyr + 2000 then cyr + 2000 else cyr + 1900

/-- Full decode of a compact epoch `"YY:DDD:SSSSS"` by the packaged reader:
`datetime(yr,1,1) + timedelta(doy-1) + timedelta(seconds=isec)`, as seconds
since 0001-01-01. -/
def time_str2dt (cyr doy isec nowYear : ℕ) : ℤ :=
  ((days_before_year (time_str2dt_year cyr nowYear) : ℤ) + ((doy : ℤ) - 1)) * 86400
    + (isec : ℤ)

/-- C4 counterexample: the duplicate reader resolves the 2-digit year "30",
processed in year 2026, to calendar year 2030 — later than the current year
(and, dually, it resolves "09" in 2026 to 1909). -/
theorem c4_counterexample :
    time_str2dt_year_dup 30 2026 = 2030
    ∧ ¬ time_str2dt_year_dup 30 2026 ≤ 2026
    ∧ time_str2dt_year_dup 9 2026 = 1909 := by
  refine ⟨rfl, by decide, rfl⟩

/-- C4 amended: the century rule of the packaged reader
(itrftools/compute_psd.py, the one the SSC reader imports) never yields a year
later than the current processing year, for any 2-digit year, whenever the
current year is at least 2000; the duplicate top-level reader uses the opposite
comparison and violates the property. -/
theorem c4_amended :
    ∀ cyr nowYear : ℕ, cyr ≤ 99 → 2000 ≤ nowYear →
      time_str2dt_year cyr nowYear ≤ nowYear := by
  intro cyr nowYear h99 h2000
  simp only [time_str2dt_year]
  split_ifs with h
  · omega
  · omega

/-- C4 witness: the packaged rule applied to the 2-digit year "09" in 2026. -/
theorem c4_witness : time_str2dt_year 9 2026 ≤ 2026 :=
  c4_amended 9 2026 (by decide) (by decide)

/-
Coordinate transform (compute_psd.py `xyz2llh`), over the reals.
-/

/-- Python `math.atan2(y, x)`: the argument of the complex number `x + i y`
(range `(-π, π]`, with `atan2 0 0 = 0`). -/
noncomputable def atan2 (y x : ℝ) : ℝ := Complex.arg ⟨x, y⟩

/-- compute_psd.py `xyz2llh`: Cartesian to geodetic coordinates by Halley's
accelerated method (Borkowski-style single pass), returning
`(latitude, longitude, height)`.  Translated line by line; the two branches of
`if p2 > aeps2` are the general case and the polar-axis special case. -/
noncomputable def xyz2llh (x y z : ℝ) (a : ℝ := 6378137)
    (f : ℝ := 0.003352810681183637418) : ℝ × ℝ × ℝ :=
  let aeps2 := a * a * 1e-32
  let e2 := (2 - f) * f
  let e4t := e2 * e2 * 1.5
  let ep2 := 1 - e2
  let ep := Real.sqrt ep2
  let aep := a * ep
  let p2 := x * x + y * y
  let lon := if p2 ≠ 0 then atan2 y x else 0
  let absz := |z|
  let ph :=
    if p2 > aeps2 then
      let p := Real.sqrt p2
      let s0 := absz / a
      let pn := p / a
      let zp := ep * s0
      let c0 := ep * pn
      let c02 := c0 * c0
      let c03 := c02 * c0
      let s02 := s0 * s0
      let s03 := s02 * s0
      let a02 := c02 + s02
      let a0 := Real.sqrt a02
      let a03 := a02 * a0
      let d0 := zp * a03 + e2 * s03
      let f0 := pn * a03 - e2 * c03
      let b0 := e4t * s02 * c02 * pn * (a0 - ep)
      let s1 := d0 * f0 - b0 * s0
      let cp := ep * (f0 * f0 - b0 * c0)
      (Real.arctan (s1 / cp),
        (p * cp + absz * s1 - a * Real.sqrt (ep2 * (s1 * s1) + cp * cp))
          / Real.sqrt (s1 * s1 + cp * cp))
    else
      (Real.pi / 2, absz - aep)
  let phi := if z < 0 then -ph.1 else ph.1
  (phi, lon, ph.2)

lemma xyz2llh_pole (z a f : ℝ) (hf : f ≤ 1) :
    xyz2llh 0 0 z a f =
      ((if z < 0 then -(Real.pi / 2) else Real.pi / 2), 0, |z| - a * (1 - f)) := by
  have hc1 : ¬ ((0 : ℝ) * 0 + 0 * 0 ≠ 0) := by norm_num
  have hc2 : ¬ ((0 : ℝ) * 0 + 0 * 0 > a * a * 1e-32) := by
    have h := mul_nonneg (mul_self_nonneg a) (show (0 : ℝ) ≤ 1e-32 by norm_num)
    norm_num
    linarith
  have hep : Real.sqrt (1 - (2 - f) * f) = 1 - f := by
    have h : 1 - (2 - f) * f = (1 - f) ^ 2 := by ring
    rw [h, Real.sqrt_sq (by linarith)]
  simp only [xyz2llh]
  rw [if_neg hc1, if_neg hc2, hep]

/-- C3 counterexample: at the polar axis with ellipsoid `a = 4, f = 3/4` and
`z = 10`, the returned height is `|z| - a*(1-f) = 9`, not the claimed
`|z| - a*sqrt(1-f) = 8`: the code computes `aep = a*sqrt(1-e²)` with
`1-e² = (1-f)²`, i.e. `a*(1-f)` — the semi-minor axis — not `a*sqrt(1-f)`. -/
theorem c3_counterexample :
    (xyz2llh 0 0 10 4 (3 / 4)).2.2 ≠ |(10 : ℝ)| - 4 * Real.sqrt (1 - 3 / 4) := by
  have hl : (xyz2llh 0 0 10 4 (3 / 4)).2.2 = 9 := by
    rw [xyz2llh_pole 10 4 (3 / 4) (by norm_num)]
    rw [abs_of_nonneg (by norm_num : (0 : ℝ) ≤ 10)]
    norm_num
  have hr : |(10 : ℝ)| - 4 * Real.sqrt (1 - 3 / 4) = 8 := by
    have h : (1 - 3 / 4 : ℝ) = (1 / 2) ^ 2 := by norm_num
    rw [abs_of_nonneg (by norm_num : (0 : ℝ) ≤ 10), h, Real.sqrt_sq (by norm_num)]
    norm_num
  rw [hl, hr]
  norm_num

/-- C3 amended: on the polar axis (`x = y = 0`) the transform returns latitude
`+π/2` for `z ≥ 0` and `-π/2` for `z < 0` as claimed, and height
`|z| - a*(1-f)` (the distance to the pole of the ellipsoid, whose polar radius
is the semi-minor axis `b = a*(1-f)`), not `|z| - a*sqrt(1-f)`. -/
theorem c3_amended :
    ∀ z a f : ℝ, 0 < a → 0 ≤ f → f < 1 →
      ((0 ≤ z → (xyz2llh 0 0 z a f).1 = Real.pi / 2)
       ∧ (z < 0 → (xyz2llh 0 0 z a f).1 = -(Real.pi / 2))
       ∧ (xyz2llh 0 0 z a f).2.2 = |z| - a * (1 - f)) := by
  intro z a f ha hf0 hf1
  rw [xyz2llh_pole z a f (le_of_lt hf1)]
  refine ⟨?_, ?_, rfl⟩
  · intro hz
    rw [if_neg (not_lt.mpr hz)]
  · intro hz
    rw [if_pos hz]

/-- C3 witness: the amended behavior at `z = 5`, `a = 2`, `f = 1/2`. -/
theorem c3_witness :
    (xyz2llh 0 0 5 2 (1 / 2)).1 = Real.pi / 2
    ∧ (xyz2llh 0 0 5 2 (1 / 2)).2.2 = |(5 : ℝ)| - 2 * (1 - 1 / 2) :=
  ⟨(c3_amended 5 2 (1 / 2) (by norm_num) (by norm_num) (by norm_num)).1 (by norm_num),
   (c3_amended 5 2 (1 / 2) (by norm_num) (by norm_num) (by norm_num)).2.2⟩

/-- C10: on the polar axis (`x = y = 0`) the longitude is set to exactly 0
(`p2 = 0` makes the code skip the `atan2` branch), for every `z` and every
valid ellipsoid. -/
theorem c10_polar_longitude :
    ∀ z a f : ℝ, 0 < a → 0 ≤ f → f < 1 → (xyz2llh 0 0 z a f).2.1 = 0 := by
  intro z a f ha hf0 hf1
  rw [xyz2llh_pole z a f (le_of_lt hf1)]

/-- C10 witness: longitude 0 at `z = -3` on the default-shaped ellipsoid
`a = 1, f = 0`. -/
theorem c10_witness : (xyz2llh 0 0 (-3) 1 0).2.1 = 0 :=
  c10_polar_longitude (-3) 1 0 (by norm_num) (by norm_num) (by norm_num)

/-
PSD catalog accumulation (compute_psd.py `compute_psd`), with the parsed
events of the file abstracted as a list.
-/

/-- One three-line station entry of a PSD catalog, as returned by
`get_next_psd`: id, domes, earthquake epoch, and the model tag / parameter
list for each of the East, North and Up components. -/
structure PsdEvent where
  sta : String
  domes : String
  et : ℤ
  me : ℤ
  pe : List ℝ
  mn : ℤ
  pn : List ℝ
  mu : ℤ
  pu : List ℝ

/-- Whether a PSD event matches the request:
`(not station and domes == dms) or (not domes and station == sta)` — the
station name having already been uppercased. -/
def psdMatches (station domes : Option String) (e : PsdEvent) : Prop :=
  (station = none ∧ domes = some e.domes) ∨ (domes = none ∧ station = some e.sta)

instance (station domes : Option String) (e : PsdEvent) :
    Decidable (psdMatches station domes e) := by
  unfold psdMatches
  infer_instance

/-- The scan loop of `compute_psd`: for each matching event add the three
component corrections (evaluated by `parametric` at
`dyr = (dt.days + dt.seconds/86400)/365.25`) into the accumulator and remember
the event's id/domes; a raised exception aborts the scan. -/
noncomputable def psdLoop (t : ℤ) (station domes : Option String) :
    List PsdEvent → String × String × ℝ × ℝ × ℝ →
      Except PyErr (String × String × ℝ × ℝ × ℝ)
  | [], acc => .ok acc
  | e :: rest, (sd, dd, de, dn, du) =>
    if psdMatches station domes e then do
      let dyr : ℝ := ((fracYears (t - e.et) : ℚ) : ℝ)
      let ve ← parametric e.me (dyr :: e.pe)
      let vn ← parametric e.mn (dyr :: e.pn)
      let vu ← parametric e.mu (dyr :: e.pu)
      psdLoop t station domes rest (e.sta, e.domes, de + ve, dn + vn, du + vu)
    else
      psdLoop t station domes rest (sd, dd, de, dn, du)

/-- compute_psd.py `compute_psd`: `assert(not station or not domes)`, then scan
the catalog with defaults `sta_def = '    '`/`dms_def = '         '` replaced
by the requested identifiers (in their original case) and zero totals. -/
noncomputable def compute_psd (events : List PsdEvent) (t : ℤ)
    (station domes : Option String) : Except PyErr (String × String × ℝ × ℝ × ℝ) :=
  if station.isSome ∧ domes.isSome then .error .assertionError
  else
    psdLoop t (station.map strUpper) domes events
      (station.getD "    ", domes.getD "         ", 0, 0, 0)

lemma psdLoop_no_match (t : ℤ) (station domes : Option String) :
    ∀ (evs : List PsdEvent) (acc : String × String × ℝ × ℝ × ℝ),
      (∀ e ∈ evs, ¬ psdMatches station domes e) →
      psdLoop t station domes evs acc = .ok acc := by
  intro evs
  induction evs with
  | nil => intro acc h; rfl
  | cons e rest ih =>
    intro acc h
    obtain ⟨sd, dd, de, dn, du⟩ := acc
    show psdLoop t station domes (e :: rest) (sd, dd, de, dn, du) = _
    rw [psdLoop, if_neg (h e (List.mem_cons_self e rest))]
    exact ih (sd, dd, de, dn, du) fun e' he' => h e' (List.mem_cons_of_mem e he')

/-- C8: a PSD query (by station id or by domes code) that matches no event of
the catalog returns `.ok` with the zero correction vector and the originally
requested identifiers — it is not an error. -/
theorem c8_no_match_zero :
    (∀ (events : List PsdEvent) (t : ℤ) (sid : String),
      (∀ e ∈ events, e.sta ≠ strUpper sid) →
      compute_psd events t (some sid) none = .ok (sid, "         ", 0, 0, 0))
    ∧ (∀ (events : List PsdEvent) (t : ℤ) (dm : String),
      (∀ e ∈ events, e.domes ≠ dm) →
      compute_psd events t none (some dm) = .ok ("    ", dm, 0, 0, 0)) := by
  constructor
  · intro events t sid h
    rw [compute_psd, if_neg (by simp)]
    exact psdLoop_no_match t (some (strUpper sid)) none events _ fun e he hm => by
      rcases hm with ⟨h1, -⟩ | ⟨-, h2⟩
      · exact Option.noConfusion h1
      · exact h e he (Option.some.inj h2).symm
  · intro events t dm h
    rw [compute_psd, if_neg (by simp)]
    exact psdLoop_no_match t none (some dm) events _ fun e he hm => by
      rcases hm with ⟨-, h1⟩ | ⟨h2, -⟩
      · exact h e he (Option.some.inj h1).symm
      · exact Option.noConfusion h2

/-- A sample PSD catalog entry used to instantiate C8: an event for station
SANT that does not match a request for station "gras". -/
noncomputable def psdSampleEvent : PsdEvent :=
  { sta := "SANT"
    domes := "41705M003"
    et := 0
    me := 1
    pe := [-20.5, 1.2]
    mn := 2
    pn := [10.0, 0.8]
    mu := 0
    pu := [] }

/-- C8 witness: the no-match query on a one-event catalog, by id and by
domes. -/
theorem c8_witness :
    compute_psd [psdSampleEvent] 12345 (some "gras") none =
      .ok ("gras", "         ", 0, 0, 0)
    ∧ compute_psd [psdSampleEvent] 12345 none (some "00000X000") =
      .ok ("    ", "00000X000", 0, 0, 0) :=
  ⟨c8_no_match_zero.1 [psdSampleEvent] 12345 "gras" (by
      intro e he
      rw [List.mem_singleton] at he
      subst he
      show psdSampleEvent.sta ≠ strUpper "gras"
      decide),
   c8_no_match_zero.2 [psdSampleEvent] 12345 "00000X000" (by
      intro e he
      rw [List.mem_singleton] at he
      subst he
      show psdSampleEvent.domes ≠ "00000X000"
      decide)⟩
